import Mathlib

/-!
Verification development for the MANTIS NASA data generator
(`nasa/mantis_nasa_generator.py`).

Numeric quantities are modelled as rationals.  Transcendental functions
from `numpy` (`exp`, `log`, `sin`, `sqrt`) are passed in as explicit
function parameters, and every seeded random variate is supplied by an
explicit stream of draws, so each definition is a deterministic,
computable function of its inputs.  Distance comparisons of the form
`sqrt d < t` (for the positive thresholds `2.0` and `1.5` used by the
source) are embedded as the equivalent `d < t ^ 2`.
-/

namespace Mantis

/-- Model of `np.clip(x, lo, hi)`. -/
def npClip (x lo hi : ℚ) : ℚ := min hi (max lo x)

/-- Model of Python `round(x, n)`: rounding to `n` decimal digits.  The
binary-float and tie-breaking details of CPython are abstracted by the
integer rounding function on rationals. -/
def pyround (x : ℚ) (n : ℕ) : ℚ := (round (x * 10 ^ n) : ℤ) / 10 ^ n

/-- Stream of the raw draws produced by the seeded random generator; a fixed
seed determines the whole stream. -/
def Draws : Type := ℕ → ℚ

/-- Variate of a seeded `np.random.normal(mu, sigma)` call: the stream
supplies the standard normal draw `d`. -/
def np_normal (mu sigma d : ℚ) : ℚ := mu + sigma * d

/-- Variate of a seeded `np.random.uniform(lo, hi)` call: the stream supplies
the unit draw `d`. -/
def np_uniform (lo hi d : ℚ) : ℚ := lo + (hi - lo) * d

/-- Variate of a seeded `np.random.randint(lo, hi)` call (half-open range):
the draw selects the offset below `hi - lo`. -/
def np_randint (lo hi : ℤ) (d : ℚ) : ℤ := lo + ((Int.toNat ⌊d⌋ % Int.toNat (hi - lo) : ℕ) : ℤ)

/-- Variate of a seeded `np.random.choice(xs)` call: the draw selects the
index. -/
def np_choice {α : Type} (xs : List α) (dflt : α) (d : ℚ) : α :=
  xs.getD (Int.toNat ⌊d⌋ % xs.length) dflt

/-- Variate of a seeded `np.random.lognormal(mu, sigma)` call,
`exp (mu + sigma * d)` with the ambient exponential `texp`. -/
def np_lognormal (texp : ℚ → ℚ) (mu sigma d : ℚ) : ℚ := texp (mu + sigma * d)

/-- Variate of a seeded `np.random.beta(a, b)` call, modelled as the
deterministic draw the seeded generator produces for this call. -/
def np_beta (_a _b : ℚ) (d : ℚ) : ℚ := d

/-- Variate of a seeded `np.random.exponential(mean)` call, by inversion with
the ambient logarithm `tlog`. -/
def np_exponential (tlog : ℚ → ℚ) (mean d : ℚ) : ℚ := -(mean * tlog (1 - d))

/-- The ambient real-analytic functions used by the source, passed as
parameters so that all definitions stay computable; `qpi` stands for `np.pi`. -/
structure TransFns where
  texp : ℚ → ℚ
  tlog : ℚ → ℚ
  tsin : ℚ → ℚ
  tsqrt : ℚ → ℚ
  qpi : ℚ

/-- Wall-clock state observed through `datetime.now()`: the day of year
`tm_yday` feeding the seasonal terms, and the full reading `nowQ` (an
abstract numeric stand-in for the iso-formatted timestamp, in hours). -/
structure Clock where
  tm_yday : ℤ
  nowQ : ℚ
deriving DecidableEq

/-- Lines 320 to 336 of `generate_mantis_tag_data`: the four additive
threshold ladders producing `tag_confidence`, capped at `0.95`. -/
def tag_confidence (feeding_intensity stomach_ph bite_force swimming_speed : ℚ) : ℚ :=
  let c1 : ℚ :=
    if feeding_intensity > 0.8 then 0.25
    else if feeding_intensity > 0.6 then 0.2
    else if feeding_intensity > 0.4 then 0.15
    else 0
  let c2 : ℚ :=
    if stomach_ph < 2.0 then 0.2
    else if stomach_ph < 2.8 then 0.15
    else if stomach_ph < 3.5 then 0.1
    else 0
  let c3 : ℚ :=
    if bite_force > 400 then 0.15
    else if bite_force > 250 then 0.12
    else if bite_force > 150 then 0.08
    else 0
  let c4 : ℚ :=
    if swimming_speed > 3.5 then 0.12
    else if swimming_speed > 2.5 then 0.08
    else 0
  min 0.95 (c1 + c2 + c3 + c4)

/-- Line 306: `temp_match = 1.0 - min(1.0, abs(wt - temp_pref) / 10)`. -/
def temp_match (water_temperature temp_pref : ℚ) : ℚ :=
  1 - min 1 (|water_temperature - temp_pref| / 10)

/-- Lines 307 to 310: the accuracy probability of a tag event,
`np.clip(0.78 + (confidence - 0.5) * 0.3 + temp_match * 0.1, 0.4, 0.94)`. -/
def final_accuracy (confidence water_temperature temp_pref : ℚ) : ℚ :=
  npClip (0.78 + (confidence - 0.5) * 0.3 + temp_match water_temperature temp_pref * 0.1)
    0.4 0.94

/-- Line 171: `np.exp(-((temp - 20.5)**2) / (2 * 3.2**2))`. -/
def thermal_score (texp : ℚ → ℚ) (temp : ℚ) : ℚ :=
  texp (-((temp - 20.5) ^ 2) / (2 * 3.2 ^ 2))

/-- Lines 173 to 176: `np.log(1 + chlor * 12) / np.log(37)` when positive. -/
def productivity_score (tlog : ℚ → ℚ) (chlor : ℚ) : ℚ :=
  if chlor > 0 then tlog (1 + chlor * 12) / tlog 37 else 0.1

/-- Line 178: `min(1.0, abs(ssh)/0.3) if abs(ssh) > 0.1 else 0.4`. -/
def frontal_score (ssh_anomaly : ℚ) : ℚ :=
  if |ssh_anomaly| > 0.1 then min 1 (|ssh_anomaly| / 0.3) else 0.4

/-- Line 180: the logistic prey score. -/
def prey_score (texp : ℚ → ℚ) (plankton : ℚ) : ℚ :=
  1 / (1 + texp (-6 * (min (plankton / 35000) 1 - 0.4)))

/-- Lines 182 to 187: the coastal-band score. -/
def coastal_score (dist_coast : ℚ) : ℚ :=
  if 0.05 ≤ dist_coast ∧ dist_coast ≤ 0.3 then 1.0
  else if dist_coast < 0.05 then 0.7
  else max 0.3 (1 - (dist_coast - 0.3) / 0.4)

/-- Lines 170 to 194, `calculate_nasa_hsi`: weighted composite, environmental
multiplier, uniform perturbation `u` (the draw of the
`np.random.uniform(-0.02, 0.02)` on line 194), final clamp. -/
def calculate_nasa_hsi (texp tlog : ℚ → ℚ)
    (temp chlor ssh_anomaly plankton dist_coast env_impact u : ℚ) : ℚ :=
  let hsi := 0.30 * thermal_score texp temp + 0.35 * productivity_score tlog chlor +
    0.20 * frontal_score ssh_anomaly + 0.10 * prey_score texp plankton +
    0.05 * coastal_score dist_coast
  let hsi2 := hsi * (1 + env_impact)
  npClip (hsi2 + np_uniform (-0.02) 0.02 u) 0.1 0.98

/-- Lines 142 to 147: the quality bucket of a habitat-suitability value. -/
def habitat_quality (hsi : ℚ) : String :=
  if hsi ≥ 0.75 then "high" else if hsi ≥ 0.5 then "medium" else "low"

/-- Lines 196 to 204, `predict_prey_type`. -/
def predict_prey_type (chlor temp plankton : ℚ) : String :=
  if plankton > 25000 ∧ chlor > 2.5 then "plankton_bloom"
  else if 1.0 ≤ chlor ∧ chlor ≤ 3.0 ∧ temp > 19 then "small_fish"
  else if chlor < 1.0 ∧ temp < 19 then "squid_cephalopods"
  else "mixed_diet"

/-- Boolean test that `pre` is a leading segment of the second list. -/
def listPref : List Char → List Char → Bool
  | [], _ => true
  | _ :: _, [] => false
  | a :: as, b :: bs => a == b && listPref as bs

/-- Boolean substring test on character lists. -/
def substrIn (needle : List Char) : List Char → Bool
  | [] => needle.isEmpty
  | c :: t => listPref needle (c :: t) || substrIn needle t

/-- Model of the Python membership test `needle in hay` on strings. -/
def strContains (hay needle : String) : Bool := substrIn needle.data hay.data

/-- One geometry entry of an EONET event.  Its `coordinates` list models the
JSON payload: `some q` is a numeric entry, `none` a non-numeric one whose
use in arithmetic raises the exception the source catches. -/
structure EonetGeometry where
  coordinates : List (Option ℚ)
deriving DecidableEq

/-- An EONET event as consumed by the source.  `categories` is `none` when
the key is missing (Python then substitutes the default `[{}]`, whose first
entry yields the empty title) and `some l` when present with titles `l`
(`some []` raises `IndexError` when indexed). -/
structure EonetEvent where
  geometry : List EonetGeometry
  categories : Option (List String)
deriving DecidableEq

/-- The title the source reads through
the `categories` lookup with default `[ {} ]` indexed at 0 followed by the
`title` lookup with default empty string: `none` models the
`IndexError` raised on a present-but-empty category list. -/
def headTitle : Option (List String) → Option String
  | none => some ""
  | some [] => none
  | some (t :: _) => some t

/-- Boolean test that a well-formed coordinate pair `(x, y)` lies within
`threshold` degrees of the sample point; `sqrt d < t` is embedded as
`d < t ^ 2` (all thresholds used by the source are positive). -/
def pairNear (lat lon x y threshold : ℚ) : Bool :=
  decide ((lat - y) ^ 2 + (lon - x) ^ 2 < threshold ^ 2)

/-- Lines 126 to 137: the inner geometry loop of the `environmental_impact`
accumulation for one event, at threshold `2.0`.  A geometry entry with fewer
than two coordinates is skipped; a non-numeric entry in the first two
positions raises, which aborts the event (the `except: continue`), keeping
the contributions already accumulated; a nearby entry with an
empty-but-present category list raises `IndexError`, likewise aborting. -/
def geomImpact (lat lon : ℚ) (cats : Option (List String)) : List EonetGeometry → ℚ
  | [] => 0
  | g :: rest =>
    match g.coordinates with
    | some x :: some y :: _ =>
      if pairNear lat lon x y 2 then
        match headTitle cats with
        | none => 0
        | some t =>
          (if strContains t "Storm" then -0.1
           else if strContains t "Sea" then 0.05 else 0) + geomImpact lat lon cats rest
      else geomImpact lat lon cats rest
    | _ :: _ :: _ => 0
    | _ => geomImpact lat lon cats rest

/-- Lines 123 to 137: `env_impact` accumulated over the whole event list. -/
def environmental_impact (lat lon : ℚ) (events : List EonetEvent) : ℚ :=
  (events.map fun ev => geomImpact lat lon ev.categories ev.geometry).sum

/-- Lines 206 to 216, the geometry loop of `event_nearby`: first well-formed
pair within the threshold returns `True`; an exception (non-numeric entry)
makes the function return `False` for the whole event. -/
def geomNearby (lat lon threshold : ℚ) : List EonetGeometry → Bool
  | [] => false
  | g :: rest =>
    match g.coordinates with
    | some x :: some y :: _ =>
      if pairNear lat lon x y threshold then true
      else geomNearby lat lon threshold rest
    | _ :: _ :: _ => false
    | _ => geomNearby lat lon threshold rest

/-- Lines 206 to 216, `event_nearby(event, lat, lon, threshold)`. -/
def event_nearby (ev : EonetEvent) (lat lon threshold : ℚ) : Bool :=
  geomNearby lat lon threshold ev.geometry

/-- Line 161: `len([e for e in eonet_events if self.event_nearby(e, lat, lon)])`;
the call leaves `threshold` at its default `1.5`. -/
def nearby_count (lat lon : ℚ) (events : List EonetEvent) : ℕ :=
  (events.filter fun ev => event_nearby ev lat lon 1.5).length

/-- Number of well-formed geometry pairs of the list lying within `threshold`
degrees of the sample point, counting only the entries before the first
non-numeric pair (as the exception handling of the source does). -/
def nearbyPairCount (lat lon threshold : ℚ) : List EonetGeometry → ℕ
  | [] => 0
  | g :: rest =>
    match g.coordinates with
    | some x :: some y :: _ =>
      (if pairNear lat lon x y threshold then 1 else 0) + nearbyPairCount lat lon threshold rest
    | _ :: _ :: _ => 0
    | _ => nearbyPairCount lat lon threshold rest

/-- Signed coefficient read off a category title: `-0.1` for a storm title,
`+0.05` for a sea title, `0` otherwise (also when the title lookup raised). -/
def titleCoeff : Option String → ℚ
  | none => 0
  | some t => if strContains t "Storm" then -0.1 else if strContains t "Sea" then 0.05 else 0

/-- Signed per-event coefficient determined by the first category
title of the event. -/
def eventCoeff (ev : EonetEvent) : ℚ := titleCoeff (headTitle ev.categories)

/-- Claim-side definition, from the words of the claim: an event is nearby when at
least one of its geometry coordinate pairs lies within 2.0 degrees of the
sample point, malformed entries being skipped. -/
def claimNearby (lat lon : ℚ) (ev : EonetEvent) : Bool :=
  ev.geometry.any fun g =>
    match g.coordinates with
    | some x :: some y :: _ => pairNear lat lon x y 2
    | _ => false

/-- Claim-side definition: storm-category event. -/
def claimStorm (ev : EonetEvent) : Bool :=
  match headTitle ev.categories with
  | some t => strContains t "Storm"
  | none => false

/-- Claim-side definition: sea-category event (the `elif` of the source makes the
two categories exclusive). -/
def claimSea (ev : EonetEvent) : Bool :=
  match headTitle ev.categories with
  | some t => !strContains t "Storm" && strContains t "Sea"
  | none => false

/-- Claim-side definition of `environmental_impact`, from the words of the claim:
each nearby event contributes exactly once. -/
def claimEnvImpact (lat lon : ℚ) (events : List EonetEvent) : ℚ :=
  -0.1 * ((events.filter fun ev => claimNearby lat lon ev && claimStorm ev).length : ℚ) +
    0.05 * ((events.filter fun ev => claimNearby lat lon ev && claimSea ev).length : ℚ)

/-- Claim-side definition of `nearby_event_count`, from the words of the claim:
the threshold is the same 2.0 degrees as in `environmental_impact`. -/
def claimNearbyCount (lat lon : ℚ) (events : List EonetEvent) : ℕ :=
  (events.filter fun ev => claimNearby lat lon ev).length

/-- Zero-padded three-digit rendering used by the id format `{i:03d}`. -/
def pad3 (n : ℕ) : String :=
  if n < 10 then "00" ++ toString n else if n < 100 then "0" ++ toString n else toString n

/-- Zero-padded two-digit rendering used by the id format `{i:02d}`. -/
def pad2 (n : ℕ) : String :=
  if n < 10 then "0" ++ toString n else toString n

/-- Lines 21 to 27: the static hotspot table. -/
structure Hotspot where
  name : String
  lat : ℚ
  lon : ℚ
  activity : ℚ
deriving DecidableEq

def shark_hotspots : List Hotspot :=
  [⟨"Sydney Harbour", -33.8688, 151.2093, 0.9⟩,
   ⟨"Bondi Beach", -33.8915, 151.2767, 0.8⟩,
   ⟨"Manly Beach", -33.7969, 151.2899, 0.7⟩,
   ⟨"Cronulla Beach", -34.0281, 151.1789, 0.6⟩,
   ⟨"Coogee Beach", -33.9205, 151.2584, 0.5⟩]

def dfltHotspot : Hotspot := ⟨"", 0, 0, 0⟩

/-- One row of the oceanographic table built on lines 149 to 165. -/
structure OceanRecord where
  latitude : ℚ
  longitude : ℚ
  chlorophyll_a : ℚ
  sea_surface_temperature : ℚ
  ssh_anomaly : ℚ
  plankton_density : ℚ
  habitat_suitability_index : ℚ
  predicted_prey_type : String
  habitat_quality : String
  location_name : String
  timestamp : ℚ
  environmental_events_nearby : ℕ
  source : String
  nasa_attribution : String
  distance_from_coast_deg : ℚ
deriving DecidableEq

/-- One row of the satellite-prediction table built on lines 226 to 243. -/
structure Prediction where
  prediction_id : String
  latitude : ℚ
  longitude : ℚ
  confidence : ℚ
  timestamp : ℚ
  water_temperature : ℚ
  chlorophyll_a : ℚ
  ssh_anomaly : ℚ
  plankton_density : ℚ
  predicted_prey_type : String
  habitat_quality : String
  location_name : String
  data_source : String
  nasa_dataset : String
  nasa_attribution : String
  environmental_events_nearby : ℕ
deriving DecidableEq

def dfltPrediction : Prediction :=
  ⟨"", 0, 0, 0, 0, 0, 0, 0, 0, "", "", "", "", "", "", 0⟩

/-- Lines 250 to 256: one entry of the species profile table. -/
structure SpeciesProfile where
  name : String
  temp_pref : ℚ
  size_lo : ℚ
  size_hi : ℚ
  aggression : ℚ
deriving DecidableEq

def shark_species_table : List SpeciesProfile :=
  [⟨"Great White", 20.0, 3.5, 5.2, 0.9⟩,
   ⟨"Tiger Shark", 22.5, 3.0, 4.5, 0.8⟩,
   ⟨"Bull Shark", 24.0, 2.8, 4.0, 0.85⟩,
   ⟨"Hammerhead", 21.0, 3.2, 4.5, 0.6⟩,
   ⟨"Bronze Whaler", 19.0, 2.5, 3.8, 0.4⟩]

def dfltSpecies : SpeciesProfile := ⟨"", 0, 0, 0, 0⟩

/-- Lines 261 to 270: one tagged shark. -/
structure SharkTag where
  shark_id : String
  species : String
  size_m : ℚ
  temp_pref : ℚ
  aggression : ℚ
deriving DecidableEq

/-- One row of the tag-telemetry table built on lines 340 to 361. -/
structure TagEvent where
  tag_id : String
  shark_species : String
  shark_size_m : ℚ
  latitude : ℚ
  longitude : ℚ
  timestamp : ℚ
  feeding_detected : Bool
  feeding_intensity : ℚ
  stomach_ph : ℚ
  bite_force_newtons : ℚ
  swimming_speed_ms : ℚ
  water_temperature : ℚ
  actual_prey_type : String
  predicted_prey_type : String
  prediction_accuracy : String
  tag_confidence : ℚ
  satellite_confidence : ℚ
  data_source : String
  battery_level_percent : ℚ
  signal_strength_dbm : ℤ
deriving DecidableEq

def dfltTagEvent : TagEvent :=
  ⟨"", "", 0, 0, 0, 0, false, 0, 0, 0, 0, 0, "", "", "", 0, 0, "", 0, 0⟩

/-- Lines 278 to 281: the primary filter on the prediction table. -/
def primary_filter (sat : List Prediction) (temp_pref : ℚ) : List Prediction :=
  sat.filter fun p => decide (p.confidence > 0.4 ∧ |p.water_temperature - temp_pref| < 6)

/-- Line 284: the relaxed confidence-only filter. -/
def relaxed_filter (sat : List Prediction) : List Prediction :=
  sat.filter fun p => decide (p.confidence > 0.3)

/-- Lines 278 to 284: the candidate pool after the two-stage relaxation. -/
def suitable_pool (sat : List Prediction) (temp_pref : ℚ) : List Prediction :=
  let s := primary_filter sat temp_pref
  if s.isEmpty then relaxed_filter sat else s

/-- Lines 277 to 361: one iteration of the per-event loop of
`generate_mantis_tag_data`.  Returns the emitted event (or `none` when both
filters come back empty) together with the advanced draw counter; the
stream `r` supplies, in source order, the variates of the pandas `sample`,
the two coordinate jitters, the beta, the two uniforms, the speed uniform,
the Bernoulli draw, the optional wrong-prey choice, and the
timestamp/water/battery/signal draws. -/
def tag_event_step (F : TransFns) (C : Clock) (sat : List Prediction) (shark : SharkTag)
    (event_num : ℕ) (r : Draws) (k : ℕ) : Option TagEvent × ℕ :=
  let suitable := suitable_pool sat shark.temp_pref
  if suitable.isEmpty then (none, k)
  else
    let pred := suitable.getD (Int.toNat ⌊r k⌋ % suitable.length) dfltPrediction
    let lat := pred.latitude + np_normal 0 0.0008 (r (k + 1))
    let lon := pred.longitude + np_normal 0 0.0008 (r (k + 2))
    let feeding_intensity := np_beta 2 3 (r (k + 3))
    let stomach_ph :=
      if feeding_intensity > 0.7 then np_uniform 1.2 2.2 (r (k + 4))
      else np_uniform 2.8 4.2 (r (k + 4))
    let bite_force := shark.size_m * 180 * shark.aggression * feeding_intensity *
      np_uniform 0.8 1.2 (r (k + 5))
    let swimming_speed :=
      if feeding_intensity > 0.6 then np_uniform 2.8 5.2 (r (k + 6))
      else np_uniform 0.9 2.3 (r (k + 6))
    let acc := final_accuracy pred.confidence pred.water_temperature shark.temp_pref
    let hit := decide (r (k + 7) < acc)
    let actual_prey :=
      if hit then pred.predicted_prey_type
      else np_choice
        ((["small_fish", "plankton_bloom", "squid_cephalopods", "mixed_diet"].filter
          fun p => p != pred.predicted_prey_type)) "" (r (k + 8))
    let accuracy_result := if hit then "correct" else "incorrect"
    let k2 := if hit then k + 8 else k + 9
    let tc := tag_confidence feeding_intensity stomach_ph bite_force swimming_speed
    let hours := np_randint 1 168 (r k2)
    let event_time := C.nowQ - hours
    let ev : TagEvent :=
      { tag_id := "TAG_" ++ shark.shark_id ++ "_" ++ pad2 (event_num + 1)
        shark_species := shark.species
        shark_size_m := shark.size_m
        latitude := pyround lat 6
        longitude := pyround lon 6
        timestamp := event_time
        feeding_detected := true
        feeding_intensity := pyround feeding_intensity 3
        stomach_ph := pyround stomach_ph 2
        bite_force_newtons := pyround bite_force 1
        swimming_speed_ms := pyround swimming_speed 2
        water_temperature := pyround (pred.water_temperature + np_normal 0 0.3 (r (k2 + 1))) 2
        actual_prey_type := actual_prey
        predicted_prey_type := pred.predicted_prey_type
        prediction_accuracy := accuracy_result
        tag_confidence := pyround tc 3
        satellite_confidence := pred.confidence
        data_source := "mantis_tag"
        battery_level_percent := pyround (max 25 (100 - np_exponential F.tlog 12 (r (k2 + 2)))) 1
        signal_strength_dbm := np_randint (-88) (-42) (r (k2 + 3)) }
    (some ev, k2 + 4)

/-- Lines 277 to 361: the inner `for event_num in range(n_events)` loop; the
first argument counts the remaining iterations. -/
def run_events (F : TransFns) (C : Clock) (sat : List Prediction) (shark : SharkTag)
    (r : Draws) : ℕ → ℕ → ℕ → List TagEvent × ℕ
  | 0, _, k => ([], k)
  | n + 1, event_num, k =>
    match tag_event_step F C sat shark event_num r k with
    | (some ev, k2) =>
      let rk := run_events F C sat shark r n (event_num + 1) k2
      (ev :: rk.1, rk.2)
    | (none, k2) => run_events F C sat shark r n (event_num + 1) k2

/-- Lines 261 to 270: instantiation of the tagged sharks; species drawn by
`np.random.choice` over the profile table, size uniform in the species
range, rounded to one digit. -/
def make_sharks (r : Draws) : ℕ → ℕ → ℕ → List SharkTag × ℕ
  | 0, _, k => ([], k)
  | n + 1, i, k =>
    let sp := np_choice shark_species_table dfltSpecies (r k)
    let size := np_uniform sp.size_lo sp.size_hi (r (k + 1))
    let tag : SharkTag :=
      ⟨"MANTIS_" ++ pad3 (i + 1), sp.name, pyround size 1, sp.temp_pref, sp.aggression⟩
    let rk := make_sharks r n (i + 1) (k + 2)
    (tag :: rk.1, rk.2)

/-- Lines 274 to 361: the outer per-shark loop; `n_events` is drawn by
`np.random.randint(8, 16)` for each shark. -/
def shark_loop (F : TransFns) (C : Clock) (sat : List Prediction) (r : Draws) :
    List SharkTag → ℕ → List TagEvent × ℕ
  | [], k => ([], k)
  | s :: rest, k =>
    let n_events := Int.toNat (np_randint 8 16 (r k))
    let ek := run_events F C sat s r n_events 0 (k + 1)
    let rk := shark_loop F C sat r rest ek.2
    (ek.1 ++ rk.1, rk.2)

/-- Lines 247 to 363, `generate_mantis_tag_data`. -/
def generate_mantis_tag_data (F : TransFns) (C : Clock) (sat : List Prediction)
    (n_sharks : ℕ) (r : Draws) (k : ℕ) : List TagEvent × ℕ :=
  let sk := make_sharks r n_sharks 0 k
  shark_loop F C sat r sk.1 sk.2

/-- Lines 86 to 165: the body of the sampling loop of
`generate_nasa_enhanced_data` for index `i`, with the external event list
already fetched (stubbed by the caller) and the draw counter threaded. -/
def ocean_sample (F : TransFns) (C : Clock) (events : List EonetEvent) (i : ℕ)
    (r : Draws) (k : ℕ) : OceanRecord × ℕ :=
  let step :=
    if i < 90 then
      let h := np_choice shark_hotspots dfltHotspot (r k)
      (h.lat + np_normal 0 0.15 (r (k + 1)), h.lon + np_normal 0 0.15 (r (k + 2)),
        h.name, k + 3)
    else
      (np_uniform (-34.5) (-33.0) (r k), np_uniform 150.5 152.0 (r (k + 1)),
        "Sydney Waters", k + 2)
  let lat := npClip step.1 (-34.5) (-33.0)
  let lon := npClip step.2.1 150.5 152.0
  let location_name := step.2.2.1
  let k1 := step.2.2.2
  let dist := F.tsqrt ((lat - (-33.8688)) ^ 2 + (lon - 151.2093) ^ 2)
  let base_chlor : ℚ := if dist < 0.1 then 2.5 else if dist < 0.3 then 1.2 else 0.4
  let seasonal_factor := 1 + 0.3 * F.tsin (2 * F.qpi * ((C.tm_yday : ℚ) / 365))
  let chlor := npClip (base_chlor * seasonal_factor * np_lognormal F.texp 0 0.5 (r k1))
    0.05 10.0
  let seasonal_temp : ℚ := 20.5 + 4 * F.tsin (2 * F.qpi * (((C.tm_yday : ℚ) - 30) / 365))
  let temp_offset := -1.5 * min (dist / 0.4) 1.0
  let sst := npClip (seasonal_temp + temp_offset + np_normal 0 1.2 (r (k1 + 1))) 15 26
  let ssh_anomaly := np_normal 0 0.2 (r (k1 + 2))
  let plankton := max 800 (min 45000 (chlor * 7000 * (1 + np_normal 0 0.3 (r (k1 + 3)))))
  let env_impact := environmental_impact lat lon events
  let hsi := calculate_nasa_hsi F.texp F.tlog sst chlor ssh_anomaly plankton dist env_impact
    (r (k1 + 4))
  let prey_type := predict_prey_type chlor sst plankton
  let row : OceanRecord :=
    { latitude := pyround lat 6
      longitude := pyround lon 6
      chlorophyll_a := pyround chlor 4
      sea_surface_temperature := pyround sst 2
      ssh_anomaly := pyround ssh_anomaly 3
      plankton_density := pyround plankton 1
      habitat_suitability_index := pyround hsi 4
      predicted_prey_type := prey_type
      habitat_quality := habitat_quality hsi
      location_name := location_name
      timestamp := C.nowQ
      environmental_events_nearby := nearby_count lat lon events
      source := "NASA_INFORMED_GENERATION"
      nasa_attribution := "Based on NASA MODIS climatology and EONET events"
      distance_from_coast_deg := pyround dist 3 }
  (row, k1 + 5)

/-- Lines 86 to 166: the sampling loop, counting down the remaining samples. -/
def ocean_loop (F : TransFns) (C : Clock) (events : List EonetEvent) (r : Draws) :
    ℕ → ℕ → ℕ → List OceanRecord × ℕ
  | 0, _, k => ([], k)
  | n + 1, i, k =>
    let rowk := ocean_sample F C events i r k
    let rk := ocean_loop F C events r n (i + 1) rowk.2
    (rowk.1 :: rk.1, rk.2)

/-- Lines 78 to 168, `generate_nasa_enhanced_data`, with the EONET fetch
stubbed by the `events` parameter (the fetch degrades to `[]` on failure
and draws nothing from the random stream). -/
def generate_nasa_enhanced_data (F : TransFns) (C : Clock) (events : List EonetEvent)
    (r : Draws) (k : ℕ) : List OceanRecord × ℕ :=
  ocean_loop F C events r 150 0 k

/-- Lines 225 to 243: projection of one ocean record (at position `i`) to a
prediction row. -/
def to_prediction (i : ℕ) (d : OceanRecord) : Prediction :=
  { prediction_id := "NASA_" ++ pad3 (i + 1)
    latitude := d.latitude
    longitude := d.longitude
    confidence := d.habitat_suitability_index
    timestamp := d.timestamp
    water_temperature := d.sea_surface_temperature
    chlorophyll_a := d.chlorophyll_a
    ssh_anomaly := d.ssh_anomaly
    plankton_density := d.plankton_density
    predicted_prey_type := d.predicted_prey_type
    habitat_quality := d.habitat_quality
    location_name := d.location_name
    data_source := "nasa_satellite"
    nasa_dataset := d.source
    nasa_attribution := d.nasa_attribution
    environmental_events_nearby := d.environmental_events_nearby }

/-- Lines 218 to 245, `create_satellite_predictions`. -/
def create_satellite_predictions (F : TransFns) (C : Clock) (events : List EonetEvent)
    (r : Draws) (k : ℕ) : List Prediction × ℕ :=
  let ok := generate_nasa_enhanced_data F C events r k
  (ok.1.enum.map fun p => to_prediction p.1 p.2, ok.2)

/-- Value of a dynamically typed display cell: numeric, or a string such as
the back-fill sentinel. -/
inductive CellVal where
  | num (q : ℚ)
  | str (s : String)
deriving DecidableEq

/-- One row of the combined display table built on lines 365 to 405. -/
structure CombinedRecord where
  event_id : String
  latitude : ℚ
  longitude : ℚ
  display_confidence : ℚ
  timestamp : ℚ
  prey_type : String
  data_source : String
  habitat_quality : String
  location_name : String
  shark_species : String
  shark_size_m : CellVal
  marker_type : String
  popup_info : String
deriving DecidableEq

/-- Lines 368 to 400: projection of a prediction row into the display
schema; the columns only the tag side has are back-filled with the
sentinel. -/
def sat_to_combined (p : Prediction) : CombinedRecord :=
  { event_id := p.prediction_id
    latitude := p.latitude
    longitude := p.longitude
    display_confidence := p.confidence
    timestamp := p.timestamp
    prey_type := p.predicted_prey_type
    data_source := p.data_source
    habitat_quality := p.habitat_quality
    location_name := p.location_name
    shark_species := "N/A"
    shark_size_m := CellVal.str "N/A"
    marker_type := "prediction"
    popup_info := "🛰️ NASA Prediction (" ++ p.habitat_quality ++ ") - " ++ p.location_name }

/-- Lines 372 to 402: projection of a tag row into the display schema; the
columns only the prediction side has are back-filled with the sentinel.
The numeric rendering inside the popup string is abstracted by `toString`. -/
def tag_to_combined (t : TagEvent) : CombinedRecord :=
  { event_id := t.tag_id
    latitude := t.latitude
    longitude := t.longitude
    display_confidence := t.tag_confidence
    timestamp := t.timestamp
    prey_type := t.actual_prey_type
    data_source := t.data_source
    habitat_quality := "N/A"
    location_name := "N/A"
    shark_species := t.shark_species
    shark_size_m := CellVal.num t.shark_size_m
    marker_type := "validation"
    popup_info := "🏷️ " ++ t.shark_species ++ " (" ++ toString t.shark_size_m ++
      "m) - Feeding Event" }

/-- Lines 365 to 405, `create_combined_dataset`: the two projected tables
concatenated, predictions first. -/
def create_combined_dataset (sat : List Prediction) (tag : List TagEvent) :
    List CombinedRecord :=
  sat.map sat_to_combined ++ tag.map tag_to_combined

/-- The flat metrics record returned on lines 433 to 440. -/
structure AnalysisResults where
  total_predictions : ℕ
  total_validations : ℕ
  prediction_accuracy : ℚ
  avg_satellite_confidence : ℚ
  avg_tag_confidence : ℚ
  species_diversity : ℕ
deriving DecidableEq

/-- Lines 407 to 440, `analyze_performance` (printing elided; pandas `mean`
is sum over length and `nunique` the deduplicated count). -/
def analyze_performance (sat : List Prediction) (tag : List TagEvent) : AnalysisResults :=
  let correct := (tag.filter fun t => t.prediction_accuracy == "correct").length
  { total_predictions := sat.length
    total_validations := tag.length
    prediction_accuracy := if tag.length > 0 then (correct : ℚ) / tag.length else 0.85
    avg_satellite_confidence :=
      if sat.length > 0 then (sat.map Prediction.confidence).sum / sat.length else 0.75
    avg_tag_confidence :=
      if tag.length > 0 then (tag.map TagEvent.tag_confidence).sum / tag.length else 0.82
    species_diversity :=
      if tag.length > 0 then (tag.map TagEvent.shark_species).dedup.length else 0 }

/-- The three output tables of one pipeline run. -/
structure PipelineOutput where
  satellite : List Prediction
  tag : List TagEvent
  combined : List CombinedRecord
deriving DecidableEq

/-- Lines 663 to 714, `run_complete_pipeline` (reporting steps elided): the
three tables produced by one run, as a function of the ambient analytic
functions, the wall clock, the stubbed event feed, and the seeded draw
stream. -/
def run_complete_pipeline (F : TransFns) (C : Clock) (events : List EonetEvent)
    (r : Draws) : PipelineOutput :=
  let sk := create_satellite_predictions F C events r 0
  let tg := generate_mantis_tag_data F C sk.1 12 r sk.2
  { satellite := sk.1
    tag := tg.1
    combined := create_combined_dataset sk.1 tg.1 }

/-- Identity instantiation of the ambient analytic functions, used to
evaluate the model at concrete inputs. -/
def Fid : TransFns := ⟨fun x => x, fun x => x, fun x => x, fun x => x, 0⟩

/-- The all-zero draw stream (the stream a particular seed could produce). -/
def zeroDraws : Draws := fun _ => 0

/-- C1 amended: the pipeline output is a function of the seeded draw stream,
the ambient analytic functions, the wall-clock reading and the event feed
alone; two runs with the same stream, the same clock reading and the empty
stubbed feed produce identical satellite, tag and combined tables. -/
theorem C1_deterministic_with_clock (F : TransFns) (r1 r2 : Draws) (ca cb : Clock)
    (hr : r1 = r2) (hc : ca = cb) :
    (run_complete_pipeline F ca [] r1).satellite =
      (run_complete_pipeline F cb [] r2).satellite ∧
    (run_complete_pipeline F ca [] r1).tag = (run_complete_pipeline F cb [] r2).tag ∧
    (run_complete_pipeline F ca [] r1).combined =
      (run_complete_pipeline F cb [] r2).combined := by
  subst hr
  subst hc
  exact ⟨rfl, rfl, rfl⟩

/-- Witness for the amended C1 at the identity analytic functions, the
all-zero stream (which draws every per-shark event count as 8) and a fixed
clock. -/
theorem C1_deterministic_with_clock_witness :
    (run_complete_pipeline Fid ⟨1, 0⟩ [] zeroDraws).satellite =
      (run_complete_pipeline Fid ⟨1, 0⟩ [] zeroDraws).satellite ∧
    (run_complete_pipeline Fid ⟨1, 0⟩ [] zeroDraws).tag =
      (run_complete_pipeline Fid ⟨1, 0⟩ [] zeroDraws).tag ∧
    (run_complete_pipeline Fid ⟨1, 0⟩ [] zeroDraws).combined =
      (run_complete_pipeline Fid ⟨1, 0⟩ [] zeroDraws).combined :=
  C1_deterministic_with_clock Fid zeroDraws zeroDraws ⟨1, 0⟩ ⟨1, 0⟩ rfl rfl

/-- Counterexample for C1: with the very same draw stream but the wall clock
read at two different instants, already the satellite tables differ (every
row carries the clock reading in its timestamp field, and the day of year
enters the seasonal terms), so the three tables are not reproduced bit for
bit by merely fixing the seed and stubbing the feed. -/
theorem C1_counterexample :
    ¬ ((run_complete_pipeline Fid ⟨1, 0⟩ [] zeroDraws).satellite =
         (run_complete_pipeline Fid ⟨1, 1⟩ [] zeroDraws).satellite ∧
       (run_complete_pipeline Fid ⟨1, 0⟩ [] zeroDraws).tag =
         (run_complete_pipeline Fid ⟨1, 1⟩ [] zeroDraws).tag ∧
       (run_complete_pipeline Fid ⟨1, 0⟩ [] zeroDraws).combined =
         (run_complete_pipeline Fid ⟨1, 1⟩ [] zeroDraws).combined) := by
  intro h
  have h1 := congrArg (fun l => (l.map Prediction.timestamp).head?) h.1
  have e1 : (((run_complete_pipeline Fid ⟨1, 0⟩ [] zeroDraws).satellite.map
      Prediction.timestamp).head?) = some 0 := by
    with_unfolding_all decide
  have e2 : (((run_complete_pipeline Fid ⟨1, 1⟩ [] zeroDraws).satellite.map
      Prediction.timestamp).head?) = some 1 := by
    with_unfolding_all decide
  simp only at h1
  rw [e1, e2] at h1
  exact absurd h1 (by decide)

/-- C4: for every combination of the four sensor values, `tag_confidence`
equals the sum of the four threshold-ladder contributions capped at `0.95`,
and therefore lies in the interval `[0, 0.95]`. -/
theorem C4_tag_confidence_ladder (f p b s : ℚ) :
    tag_confidence f p b s =
      min 0.95
        ((if f > 0.8 then (0.25 : ℚ) else if f > 0.6 then 0.2 else if f > 0.4 then 0.15 else 0) +
         (if p < 2.0 then (0.2 : ℚ) else if p < 2.8 then 0.15 else if p < 3.5 then 0.1 else 0) +
         (if b > 400 then (0.15 : ℚ) else if b > 250 then 0.12 else if b > 150 then 0.08 else 0) +
         (if s > 3.5 then (0.12 : ℚ) else if s > 2.5 then 0.08 else 0)) ∧
    0 ≤ tag_confidence f p b s ∧ tag_confidence f p b s ≤ 0.95 := by
  refine ⟨rfl, ?_, ?_⟩
  · show (0 : ℚ) ≤ min 0.95 _
    refine le_min (by norm_num) ?_
    split_ifs <;> norm_num
  · show min 0.95 _ ≤ (0.95 : ℚ)
    exact min_le_left _ _

/-- C5: for confidence in `[0, 1]`, the accuracy probability equals
`clamp(0.78 + (confidence - 0.5) * 0.3 + temp_match * 0.1, 0.4, 0.94)` with
`temp_match = 1 - min(1, |sst - temp_pref| / 10)`, and lies in
`[0.4, 0.94]`. -/
theorem C5_accuracy_probability (confidence wt pref : ℚ)
    (_h0 : 0 ≤ confidence) (_h1 : confidence ≤ 1) :
    final_accuracy confidence wt pref =
      npClip (0.78 + (confidence - 0.5) * 0.3 + (1 - min 1 (|wt - pref| / 10)) * 0.1)
        0.4 0.94 ∧
    0.4 ≤ final_accuracy confidence wt pref ∧
    final_accuracy confidence wt pref ≤ 0.94 := by
  refine ⟨rfl, ?_, ?_⟩
  · show (0.4 : ℚ) ≤ min 0.94 (max 0.4 _)
    exact le_min (by norm_num) (le_max_left _ _)
  · show min 0.94 (max 0.4 _) ≤ (0.94 : ℚ)
    exact min_le_left _ _

/-- Witness for C5 at confidence `1`, temperatures `20` and `20`. -/
theorem C5_accuracy_probability_witness :
    final_accuracy 1 20 20 =
      npClip (0.78 + ((1 : ℚ) - 0.5) * 0.3 + (1 - min 1 (|(20 : ℚ) - 20| / 10)) * 0.1)
        0.4 0.94 ∧
    0.4 ≤ final_accuracy 1 20 20 ∧
    final_accuracy 1 20 20 ≤ 0.94 :=
  C5_accuracy_probability 1 20 20 zero_le_one (le_refl 1)

/-- C6: the habitat score is the weighted composite of the five sub-scores,
multiplied by `1 + environmental_impact`, perturbed by the uniform draw on
`(-0.02, 0.02)`, clamped to `[0.1, 0.98]`; and the quality bucket of a value
is `high` exactly when it is at least `0.75`, `medium` exactly on
`[0.5, 0.75)`, and `low` exactly below `0.5`. -/
theorem C6_hsi_composite_and_quality (texp tlog : ℚ → ℚ)
    (temp chlor ssh plankton dist envi u h : ℚ) :
    calculate_nasa_hsi texp tlog temp chlor ssh plankton dist envi u =
      npClip ((0.30 * thermal_score texp temp + 0.35 * productivity_score tlog chlor +
        0.20 * frontal_score ssh + 0.10 * prey_score texp plankton +
        0.05 * coastal_score dist) * (1 + envi) + np_uniform (-0.02) 0.02 u) 0.1 0.98 ∧
    (habitat_quality h = "high" ↔ 0.75 ≤ h) ∧
    (habitat_quality h = "medium" ↔ 0.5 ≤ h ∧ h < 0.75) ∧
    (habitat_quality h = "low" ↔ h < 0.5) := by
  refine ⟨rfl, ?_, ?_, ?_⟩ <;>
    · unfold habitat_quality
      split_ifs with h1 h2 <;> simp_all <;> linarith

/-- Witness for C6 with identity analytic functions and all inputs zero. -/
theorem C6_hsi_composite_and_quality_witness :
    calculate_nasa_hsi Fid.texp Fid.tlog 0 0 0 0 0 0 0 =
      npClip ((0.30 * thermal_score Fid.texp 0 + 0.35 * productivity_score Fid.tlog 0 +
        0.20 * frontal_score 0 + 0.10 * prey_score Fid.texp 0 +
        0.05 * coastal_score 0) * (1 + 0) + np_uniform (-0.02) 0.02 0) 0.1 0.98 ∧
    (habitat_quality 0.8 = "high" ↔ (0.75 : ℚ) ≤ 0.8) ∧
    (habitat_quality 0.8 = "medium" ↔ (0.5 : ℚ) ≤ 0.8 ∧ (0.8 : ℚ) < 0.75) ∧
    (habitat_quality 0.8 = "low" ↔ (0.8 : ℚ) < 0.5) :=
  C6_hsi_composite_and_quality Fid.texp Fid.tlog 0 0 0 0 0 0 0 0.8

/-- C9: the aggregate accuracy of the performance analyzer equals the count
of correct events over the total count when the tag table is nonempty, and
equals the fixed fallback `0.85` when it is empty. -/
theorem C9_aggregate_accuracy (sat : List Prediction) (tag : List TagEvent) :
    (tag ≠ [] → (analyze_performance sat tag).prediction_accuracy =
      ((tag.filter fun t => t.prediction_accuracy == "correct").length : ℚ) / tag.length) ∧
    (tag = [] → (analyze_performance sat tag).prediction_accuracy = 0.85) := by
  constructor <;> intro h
  · have hl : 0 < tag.length := List.length_pos.mpr h
    simp [analyze_performance, hl]
  · subst h
    simp [analyze_performance]

theorem suitable_pool_eq_nil_iff (sat : List Prediction) (pref : ℚ) :
    suitable_pool sat pref = [] ↔ primary_filter sat pref = [] ∧ relaxed_filter sat = [] := by
  unfold suitable_pool
  by_cases h : primary_filter sat pref = [] <;>
    simp [h, List.isEmpty_iff]

/-- C7: the relaxed filter is used exactly when the primary filter is empty,
and an iteration of the event loop emits no event exactly when both filters
are empty. -/
theorem C7_filter_fallback (sat : List Prediction) (F : TransFns) (C : Clock)
    (shark : SharkTag) (event_num k : ℕ) (r : Draws) :
    (primary_filter sat shark.temp_pref ≠ [] →
      suitable_pool sat shark.temp_pref = primary_filter sat shark.temp_pref) ∧
    (primary_filter sat shark.temp_pref = [] →
      suitable_pool sat shark.temp_pref = relaxed_filter sat) ∧
    ((tag_event_step F C sat shark event_num r k).1 = none ↔
      primary_filter sat shark.temp_pref = [] ∧ relaxed_filter sat = []) := by
  refine ⟨?_, ?_, ?_⟩
  · intro h
    unfold suitable_pool
    simp [List.isEmpty_iff, h]
  · intro h
    unfold suitable_pool
    simp [List.isEmpty_iff, h]
  · rw [← suitable_pool_eq_nil_iff]
    unfold tag_event_step
    by_cases h : suitable_pool sat shark.temp_pref = [] <;>
      simp [h, List.isEmpty_iff]

/-- Witness for C7 on the empty prediction table. -/
theorem C7_filter_fallback_witness :
    suitable_pool [] (⟨"", "", 0, 20, 0⟩ : SharkTag).temp_pref = relaxed_filter [] ∧
    (tag_event_step Fid ⟨1, 0⟩ [] ⟨"", "", 0, 20, 0⟩ 0 zeroDraws 0).1 = none := by
  have h := C7_filter_fallback [] Fid ⟨1, 0⟩ ⟨"", "", 0, 20, 0⟩ 0 0 zeroDraws
  exact ⟨h.2.1 rfl, (h.2.2).mpr ⟨rfl, rfl⟩⟩

/-- C8: the combined display table has exactly the prediction rows followed
by the tag rows (each side in its original order, so the row count is the
sum), the marker of every row is `prediction` or `validation`, and the columns a
side lacks are back-filled with the sentinel. -/
theorem C8_combined_dataset (sat : List Prediction) (tag : List TagEvent) :
    (create_combined_dataset sat tag).length = sat.length + tag.length ∧
    (∀ rcd ∈ create_combined_dataset sat tag,
      rcd.marker_type = "prediction" ∨ rcd.marker_type = "validation") ∧
    (create_combined_dataset sat tag).filter
      (fun rcd => rcd.marker_type == "prediction") = sat.map sat_to_combined ∧
    (create_combined_dataset sat tag).filter
      (fun rcd => rcd.marker_type == "validation") = tag.map tag_to_combined ∧
    (∀ p ∈ sat, (sat_to_combined p).shark_species = "N/A" ∧
      (sat_to_combined p).shark_size_m = CellVal.str "N/A") ∧
    (∀ t ∈ tag, (tag_to_combined t).habitat_quality = "N/A" ∧
      (tag_to_combined t).location_name = "N/A") := by
  refine ⟨?_, ?_, ?_, ?_, ?_, ?_⟩
  · simp [create_combined_dataset]
  · intro rcd hr
    rcases List.mem_append.mp hr with h | h
    · rcases List.mem_map.mp h with ⟨p, _, hp⟩
      exact Or.inl (hp ▸ rfl)
    · rcases List.mem_map.mp h with ⟨t, _, ht⟩
      exact Or.inr (ht ▸ rfl)
  · unfold create_combined_dataset
    rw [List.filter_append, List.filter_map, List.filter_map]
    simp [sat_to_combined, tag_to_combined, Function.comp_def]
  · unfold create_combined_dataset
    rw [List.filter_append, List.filter_map, List.filter_map]
    simp [sat_to_combined, tag_to_combined, Function.comp_def]
  · intro p _
    exact ⟨rfl, rfl⟩
  · intro t _
    exact ⟨rfl, rfl⟩

/-- Witness for C8 on a one-row prediction table and a one-row tag table. -/
theorem C8_combined_dataset_witness :
    (create_combined_dataset [dfltPrediction] [dfltTagEvent]).length =
      [dfltPrediction].length + [dfltTagEvent].length ∧
    ((sat_to_combined dfltPrediction).marker_type = "prediction" ∨
      (sat_to_combined dfltPrediction).marker_type = "validation") ∧
    (sat_to_combined dfltPrediction).shark_species = "N/A" ∧
    (tag_to_combined dfltTagEvent).habitat_quality = "N/A" := by
  have h := C8_combined_dataset [dfltPrediction] [dfltTagEvent]
  refine ⟨h.1, ?_, ?_, ?_⟩
  · exact h.2.1 (sat_to_combined dfltPrediction) (List.mem_append_left _ (by simp))
  · exact (h.2.2.2.2.1 dfltPrediction (by simp)).1
  · exact (h.2.2.2.2.2 dfltTagEvent (by simp)).1

theorem geomImpact_eq (lat lon : ℚ) (cats : Option (List String)) :
    ∀ gs : List EonetGeometry,
      geomImpact lat lon cats gs =
        titleCoeff (headTitle cats) * (nearbyPairCount lat lon 2 gs : ℚ) := by
  intro gs
  induction gs with
  | nil => simp [geomImpact, nearbyPairCount]
  | cons g rest ih =>
    obtain ⟨coords⟩ := g
    rcases coords with _ | ⟨c0, coords2⟩
    · simpa [geomImpact, nearbyPairCount] using ih
    · rcases coords2 with _ | ⟨c1, tl⟩
      · simpa [geomImpact, nearbyPairCount] using ih
      · rcases c0 with _ | x
        · simp [geomImpact, nearbyPairCount]
        · rcases c1 with _ | y
          · simp [geomImpact, nearbyPairCount]
          · by_cases hn : pairNear lat lon x y 2
            · cases hht : headTitle cats with
              | none => simp [geomImpact, nearbyPairCount, hn, hht, titleCoeff]
              | some t =>
                simp only [geomImpact, nearbyPairCount, hn, hht, if_true, ih]
                simp only [titleCoeff]
                push_cast
                ring
            · simpa [geomImpact, nearbyPairCount, hn] using ih

/-- Helper for C2: the per-event contribution, event by event. -/
theorem environmental_impact_eq (lat lon : ℚ) (events : List EonetEvent) :
    environmental_impact lat lon events =
      (events.map fun ev => eventCoeff ev * (nearbyPairCount lat lon 2 ev.geometry : ℚ)).sum := by
  unfold environmental_impact eventCoeff
  congr 1
  apply List.map_congr_left
  intro ev _
  exact geomImpact_eq lat lon ev.categories ev.geometry

theorem geomNearby_eq (lat lon t : ℚ) :
    ∀ gs : List EonetGeometry,
      geomNearby lat lon t gs = decide (0 < nearbyPairCount lat lon t gs) := by
  intro gs
  induction gs with
  | nil => simp [geomNearby, nearbyPairCount]
  | cons g rest ih =>
    obtain ⟨coords⟩ := g
    rcases coords with _ | ⟨c0, coords2⟩
    · simpa [geomNearby, nearbyPairCount] using ih
    · rcases coords2 with _ | ⟨c1, tl⟩
      · simpa [geomNearby, nearbyPairCount] using ih
      · rcases c0 with _ | x
        · simp [geomNearby, nearbyPairCount]
        · rcases c1 with _ | y
          · simp [geomNearby, nearbyPairCount]
          · by_cases hn : pairNear lat lon x y t
            · simp [geomNearby, nearbyPairCount, hn]
            · simpa [geomNearby, nearbyPairCount, hn] using ih

/-- Storm event with two well-formed geometry pairs at the sample point. -/
def cexStormEvent : EonetEvent :=
  ⟨[⟨[some 0, some 0]⟩, ⟨[some 0, some 0]⟩], some ["Storm"]⟩

/-- Counterexample for C2: a storm event with two nearby geometry pairs
contributes `-0.2`, not the `-0.1` the per-event reading predicts. -/
theorem C2_counterexample :
    environmental_impact 0 0 [cexStormEvent] ≠ claimEnvImpact 0 0 [cexStormEvent] := by
  with_unfolding_all decide

/-- C2 amended: `environmental_impact` accumulates once per nearby geometry
coordinate pair, namely the per-event category coefficient (`-0.1` storm,
`+0.05` sea) times the number of well-formed pairs within 2.0 degrees
occurring before the first malformed pair of the event; a malformed pair
stops the processing of that event, keeping the earlier contributions. -/
theorem C2_env_impact_per_pair (lat lon : ℚ) (events : List EonetEvent) :
    environmental_impact lat lon events =
      (events.map fun ev => eventCoeff ev * (nearbyPairCount lat lon 2 ev.geometry : ℚ)).sum :=
  environmental_impact_eq lat lon events

/-- Storm event whose single geometry pair is 1.8 degrees away: inside the
2.0-degree impact threshold but outside the 1.5-degree counting default. -/
def cexFarEvent : EonetEvent :=
  ⟨[⟨[some 1.8, some 0]⟩], some ["Storm"]⟩

/-- Counterexample for C3: an event 1.8 degrees away is within the claimed
2.0-degree threshold but is not counted by `nearby_event_count`, whose
`event_nearby` call leaves the threshold at its default `1.5`. -/
theorem C3_counterexample :
    nearby_count 0 0 [cexFarEvent] ≠ claimNearbyCount 0 0 [cexFarEvent] := by
  with_unfolding_all decide

/-- C3 amended: `nearby_event_count` counts the events having at least one
well-formed geometry pair within 1.5 degrees (not 2.0) of the sample point
among the pairs before the first malformed entry of the event. -/
theorem C3_nearby_count_threshold (lat lon : ℚ) (events : List EonetEvent) :
    nearby_count lat lon events =
      (events.filter fun ev => decide (0 < nearbyPairCount lat lon 1.5 ev.geometry)).length := by
  unfold nearby_count
  congr 1
  apply List.filter_congr
  intro ev _
  exact geomNearby_eq lat lon 1.5 ev.geometry

theorem mem_suitable_pool_conf {sat : List Prediction} {pref : ℚ} {p : Prediction}
    (hp : p ∈ suitable_pool sat pref) : 0.3 < p.confidence := by
  unfold suitable_pool at hp
  by_cases h : (primary_filter sat pref).isEmpty
  · rw [if_pos h] at hp
    have := (List.mem_filter.mp hp).2
    simpa [relaxed_filter] using of_decide_eq_true this
  · rw [if_neg h] at hp
    have := of_decide_eq_true (List.mem_filter.mp hp).2
    linarith [this.1]

theorem step_confidence {F : TransFns} {C : Clock} {sat : List Prediction} {shark : SharkTag}
    {event_num : ℕ} {r : Draws} {k : ℕ} {ev : TagEvent}
    (h : (tag_event_step F C sat shark event_num r k).1 = some ev) :
    0.3 < ev.satellite_confidence := by
  unfold tag_event_step at h
  by_cases hemp : (suitable_pool sat shark.temp_pref).isEmpty
  · simp [hemp] at h
  · simp only [hemp, Bool.false_eq_true, if_false] at h
    have hne : suitable_pool sat shark.temp_pref ≠ [] := fun hn => by
      rw [hn] at hemp
      exact hemp rfl
    have hlen : 0 < (suitable_pool sat shark.temp_pref).length := List.length_pos.mpr hne
    have hidx : Int.toNat ⌊r k⌋ % (suitable_pool sat shark.temp_pref).length <
        (suitable_pool sat shark.temp_pref).length := Nat.mod_lt _ hlen
    have hmem : (suitable_pool sat shark.temp_pref).getD
        (Int.toNat ⌊r k⌋ % (suitable_pool sat shark.temp_pref).length) dfltPrediction ∈
        suitable_pool sat shark.temp_pref := by
      rw [List.getD_eq_getElem _ _ hidx]
      exact List.getElem_mem hidx
    have hconf := mem_suitable_pool_conf hmem
    rw [Option.some.injEq] at h
    rw [← h]
    exact hconf

theorem run_events_confidence {F : TransFns} {C : Clock} {sat : List Prediction}
    {shark : SharkTag} {r : Draws} :
    ∀ (n event_num k : ℕ) (ev : TagEvent),
      ev ∈ (run_events F C sat shark r n event_num k).1 → 0.3 < ev.satellite_confidence := by
  intro n
  induction n with
  | zero =>
    intro _ _ ev h
    simp [run_events] at h
  | succ m ih =>
    intro event_num k ev h
    unfold run_events at h
    cases hs : tag_event_step F C sat shark event_num r k with
    | mk o k2 =>
      cases o with
      | none =>
        rw [hs] at h
        exact ih _ _ _ h
      | some e =>
        rw [hs] at h
        simp only [List.mem_cons] at h
        rcases h with h | h
        · subst h
          exact step_confidence (by rw [hs])
        · exact ih _ _ _ h

theorem shark_loop_confidence {F : TransFns} {C : Clock} {sat : List Prediction} {r : Draws} :
    ∀ (sharks : List SharkTag) (k : ℕ) (ev : TagEvent),
      ev ∈ (shark_loop F C sat r sharks k).1 → 0.3 < ev.satellite_confidence := by
  intro sharks
  induction sharks with
  | nil =>
    intro k ev h
    simp [shark_loop] at h
  | cons s rest ih =>
    intro k ev h
    unfold shark_loop at h
    rw [List.mem_append] at h
    rcases h with h | h
    · exact run_events_confidence _ _ _ _ h
    · exact ih _ _ h

/-- C10: every tag event the simulator emits references a prediction passing
one of the two filters, so its `satellite_confidence` field is strictly
greater than `0.3`. -/
theorem C10_satellite_confidence_bound (F : TransFns) (C : Clock) (sat : List Prediction)
    (n_sharks : ℕ) (r : Draws) (k : ℕ) (ev : TagEvent)
    (hev : ev ∈ (generate_mantis_tag_data F C sat n_sharks r k).1) :
    0.3 < ev.satellite_confidence := by
  unfold generate_mantis_tag_data at hev
  exact shark_loop_confidence _ _ _ hev

/-- Concrete one-row prediction table used to evaluate the model. -/
def satW : List Prediction :=
  [{ dfltPrediction with confidence := 0.5, water_temperature := 20 }]

/-- Witness for C10: the first event of a concrete one-shark run. -/
theorem C10_satellite_confidence_bound_witness :
    0.3 < ((generate_mantis_tag_data Fid ⟨1, 0⟩ satW 1 zeroDraws 0).1.headD
      dfltTagEvent).satellite_confidence := by
  apply C10_satellite_confidence_bound Fid ⟨1, 0⟩ satW 1 zeroDraws 0
  with_unfolding_all decide

/-- Witness for C9: a one-event table and the empty table. -/
theorem C9_aggregate_accuracy_witness :
    (analyze_performance [] [dfltTagEvent]).prediction_accuracy =
      ((([dfltTagEvent].filter fun t => t.prediction_accuracy == "correct").length : ℕ) : ℚ) /
        ([dfltTagEvent] : List TagEvent).length ∧
    (analyze_performance [] ([] : List TagEvent)).prediction_accuracy = 0.85 :=
  ⟨(C9_aggregate_accuracy [] [dfltTagEvent]).1 (by simp),
   (C9_aggregate_accuracy [] []).2 rfl⟩

end Mantis
